import Mathlib

/-!
# Verification of the 115 QR-code login client

Shallow embedding of `qrcode_Scan_cookie_115_GUI.py`.

The program is a QR-code login client: it requests a login token from a
remote service, downloads and displays the QR code, polls the remote
status endpoint until the login is approved, and finally exchanges the
approved session for cookies.

Modelling conventions:
* Remote HTTP interactions are modelled by a `NetResult` oracle supplied
  by the environment: either a parsed response body, or one of the
  transport failures the source distinguishes (`socket` timeout,
  `URLError`, `HTTPError`, any other exception — the latter also covers a
  JSON parse failure, since `loads` errors are caught by the generic
  `except Exception` arm of each function).
* Python dicts returned by `loads` are modelled as structures with
  `Option`-valued fields (`none` = key absent); `.get(k, d)` becomes
  `Option.getD`.  A falsy response body (`{}`) is modelled as `none`
  where the source distinguishes it (`if not status_resp`).
* Python exceptions become `Except` values; an exception kind plus its
  message string is carried in `RunErr`.
* The worker thread `QRCodeLoginApp._login_thread_func` becomes a pure
  function from an environment (remote responses, cancellation schedule,
  call durations) to a trace of observable events plus a terminal
  outcome.  The `threading.Event` cancellation flag is monotone, so it is
  modelled by the index of the first stop-check that observes it set.
-/

namespace Scan115

/-- Transport-level outcome of one HTTP request, as distinguished by the
source's `except` clauses. `ok` carries the parsed JSON body. -/
inductive NetResult (α : Type) where
  | ok (v : α)
  | timeout
  | urlError (e : String)
  | httpError (e : String)
  | otherError (e : String)
deriving Repr, DecidableEq

/-- The `data` object of a status response: `{"status": ..., "msg": ...}`. -/
structure StatusData where
  status : Option Int := none
  msg : Option String := none
deriving Repr, DecidableEq

/-- A status-poll response body. -/
structure StatusResp where
  state : Bool := false
  msg : Option String := none
  error : Option String := none
  data : Option StatusData := none
deriving Repr, DecidableEq

/-- The `data` object of an exchange (login result) response: holds the
cookie mapping. -/
structure LoginData where
  cookie : List (String × String) := []
deriving Repr, DecidableEq

/-- An exchange (login result) response body. -/
structure LoginResp where
  state : Bool := false
  msg : Option String := none
  error : Option String := none
  data : Option LoginData := none
deriving Repr, DecidableEq

/-- The `data` object of a token response (`uid`, `time`, `sign`,
`qrcode`); this dict is also reused as the poll payload after
`.pop("qrcode")`. -/
structure TokenData where
  uid : Option String := none
  time : Option Int := none
  sign : Option String := none
  qrcode : Option String := none
deriving Repr, DecidableEq

/-- A token response body. -/
structure TokenResp where
  state : Bool := false
  msg : Option String := none
  error : Option String := none
  data : Option TokenData := none
deriving Repr, DecidableEq

/-- Python exception kinds raised by the core functions / worker thread,
with their message. -/
inductive RunErr where
  | connectionError (msg : String)
  | runtimeError (msg : String)
  | valueError (msg : String)
  | keyError (msg : String)
deriving Repr, DecidableEq

/-- Python `a.get('msg') or a.get('error', d)` idiom: the first operand
wins when truthy (present and nonempty), else the second (its default `d`
applying only when the key is absent). -/
def pyOrElse (m : Option String) (e : String) : String :=
  match m with
  | some s => if s = "" then e else s
  | none => e

/-- Python `str(x)` on an optional string (`None` prints as "None"). -/
def pyShowOpt : Option String → String
  | none => "None"
  | some s => s

/-- Python `str(x)` on an optional int (`None` prints as "None"). -/
def pyShowOptInt : Option Int → String
  | none => "None"
  | some n => toString n

/-- `AppEnum = Enum("AppEnum", "web, android, ios, linux, mac, windows,
tv, alipaymini, wechatmini, qandroid")` (source line 28). -/
inductive AppEnum where
  | web | android | ios | linux | mac | windows | tv
  | alipaymini | wechatmini | qandroid
deriving Repr, DecidableEq

/-- `member.name` of an `AppEnum` member. -/
def AppEnum.name : AppEnum → String
  | .web => "web"
  | .android => "android"
  | .ios => "ios"
  | .linux => "linux"
  | .mac => "mac"
  | .windows => "windows"
  | .tv => "tv"
  | .alipaymini => "alipaymini"
  | .wechatmini => "wechatmini"
  | .qandroid => "qandroid"

/-- `member.value` of an `AppEnum` member (Python auto-assigns 1..10 in
declaration order). -/
def AppEnum.value : AppEnum → Int
  | .web => 1
  | .android => 2
  | .ios => 3
  | .linux => 4
  | .mac => 5
  | .windows => 6
  | .tv => 7
  | .alipaymini => 8
  | .wechatmini => 9
  | .qandroid => 10

/-- Name lookup `AppEnum[s]` (KeyError modelled as `none`). -/
def AppEnum.fromName (s : String) : Option AppEnum :=
  if s = "web" then some .web
  else if s = "android" then some .android
  else if s = "ios" then some .ios
  else if s = "linux" then some .linux
  else if s = "mac" then some .mac
  else if s = "windows" then some .windows
  else if s = "tv" then some .tv
  else if s = "alipaymini" then some .alipaymini
  else if s = "wechatmini" then some .wechatmini
  else if s = "qandroid" then some .qandroid
  else none

/-- Value lookup `AppEnum(n)` (ValueError modelled as `none`). -/
def AppEnum.fromValue (n : Int) : Option AppEnum :=
  if n = 1 then some .web
  else if n = 2 then some .android
  else if n = 3 then some .ios
  else if n = 4 then some .linux
  else if n = 5 then some .mac
  else if n = 6 then some .windows
  else if n = 7 then some .tv
  else if n = 8 then some .alipaymini
  else if n = 9 then some .wechatmini
  else if n = 10 then some .qandroid
  else none

/-- The Python values `get_enum_name` is invoked with: an `AppEnum`
member, a string, or an int. -/
inductive PyVal where
  | enumMember (a : AppEnum)
  | str (s : String)
  | int (n : Int)
deriving Repr, DecidableEq

/-- Python `str(val)` for the error message of `get_enum_name`. -/
def PyVal.text : PyVal → String
  | .enumMember a => "AppEnum." ++ a.name
  | .str s => s
  | .int n => toString n

/-- `get_enum_name` (source lines 30-43): member passes through; a string
is looked up by name (and a failed name lookup falls through to a value
lookup, which never matches a string since all values are ints); anything
else is looked up by value; failure raises `ValueError`. -/
def get_enum_name (val : PyVal) : Except String String :=
  match val with
  | .enumMember a => .ok a.name
  | .str s =>
      match AppEnum.fromName s with
      | some a => .ok a.name
      | none =>
          .error (s ++ " is not a valid member or name in AppEnum")
  | .int n =>
      match AppEnum.fromValue n with
      | some a => .ok a.name
      | none =>
          .error (toString n ++ " is not a valid member or name in AppEnum")

/-- `get_qrcode_token` (source lines 46-60): transport errors raise
`ConnectionError`, anything else raises `RuntimeError`. -/
def get_qrcode_token (net : NetResult TokenResp) : Except RunErr TokenResp :=
  match net with
  | .ok v => .ok v
  | .timeout => .error (.connectionError "Failed to get QR code token: timeout")
  | .urlError e => .error (.connectionError ("Failed to get QR code token: " ++ e))
  | .httpError e => .error (.connectionError ("Failed to get QR code token: " ++ e))
  | .otherError e => .error (.runtimeError ("An unexpected error occurred getting token: " ++ e))

/-- `get_qrcode_status` (source lines 63-84).  Total: it never raises.
A timeout returns the mimicked waiting response
`{"state": True, "data": {"status": 0}}`; a `URLError`/`HTTPError` or any
other exception returns
`{"state": False, "error": str(e), "data": {"status": -99}}`.
`ok none` models a falsy (empty) JSON body passing through unchanged.
The `payload` only feeds `urlencode` for the request URL. -/
def get_qrcode_status (payload : TokenData) (net : NetResult (Option StatusResp)) :
    Option StatusResp :=
  match net with
  | .ok v => v
  | .timeout => some { state := true, data := some { status := some 0 } }
  | .urlError e =>
      some { state := false, error := some e, data := some { status := some (-99) } }
  | .httpError e =>
      some { state := false, error := some e, data := some { status := some (-99) } }
  | .otherError e =>
      some { state := false, error := some e, data := some { status := some (-99) } }

/-- `get_qrcode` (source lines 114-126): downloads the QR image bytes;
transport errors raise `ConnectionError`, others `RuntimeError`. -/
def get_qrcode (uid : String) (net : NetResult (List Nat)) : Except RunErr (List Nat) :=
  match net with
  | .ok b => .ok b
  | .timeout => .error (.connectionError "Failed to download QR code image: timeout")
  | .urlError e => .error (.connectionError ("Failed to download QR code image: " ++ e))
  | .httpError e => .error (.connectionError ("Failed to download QR code image: " ++ e))
  | .otherError e => .error (.runtimeError ("An unexpected error occurred downloading QR image: " ++ e))

/-- Observable events of one login session: status-bar updates, the four
remote requests, sleeps, and the Presentation Sink effects. -/
inductive Event where
  | statusUpdate (msg : String)
  | callToken
  | callImage
  | callPoll (k : Nat)
  | callExchange (api : String)
  | sleepSec (n : Nat)
  | displayQr
  | displayCookies (cookies : List (String × String))
  | showError (msg : String)
  | showInfo (msg : String)
deriving Repr, DecidableEq

/-- The exchange endpoint URL built by `post_qrcode_result` (line 99). -/
def exchangeApi (app_name : String) : String :=
  "https://passportapi.115.com/app/1.0/" ++ app_name ++ "/1.0/login/qrcode/"

/-- `post_qrcode_result` (source lines 86-112).  Validates the app via
`get_enum_name` and raises `ValueError` before the request is built;
otherwise issues exactly one POST (the `callExchange` event, carrying the
URL) and classifies transport failures.  Returns the events it emits
paired with the result. -/
def post_qrcode_result (uid : String) (app : PyVal) (net : NetResult LoginResp) :
    List Event × Except RunErr LoginResp :=
  match get_enum_name app with
  | .error _ => ([], .error (.valueError ("Invalid app type provided: " ++ app.text)))
  | .ok app_name =>
      ([Event.callExchange (exchangeApi app_name)],
        match net with
        | .ok v => .ok v
        | .timeout =>
            .error (.connectionError
              ("Failed to post QR code result for app " ++ app_name ++ ": timeout"))
        | .urlError e =>
            .error (.connectionError
              ("Failed to post QR code result for app " ++ app_name ++ ": " ++ e))
        | .httpError e =>
            .error (.connectionError
              ("Failed to post QR code result for app " ++ app_name ++ ": " ++ e))
        | .otherError e =>
            .error (.runtimeError
              ("An unexpected error occurred posting result for app " ++ app_name ++ ": " ++ e)))

/-- Environment of one run of the worker thread
`QRCodeLoginApp._login_thread_func`: the selected app type, the remote
responses (the status endpoint's, per poll index), whether the local PIL
rendering inside `display_qr_code` fails, the cancellation schedule, and
the time each poll call consumes.

Cancellation: the `threading.Event` is monotone, so the observable
behaviour of `_stop_event.is_set()` is fully described by the index of
the first check that sees it set (`stopFrom = none`: never set).  Checks
are numbered: iteration `k` of the polling loop performs checks `3*k`
(while guard), `3*k+1` (after `time.sleep(2)`), `3*k+2` (after the poll
call). -/
structure Env where
  app : String
  tokenNet : NetResult TokenResp
  imageNet : NetResult (List Nat)
  displayFails : Bool
  pollNet : Nat → NetResult (Option StatusResp)
  exchangeNet : NetResult LoginResp
  stopFrom : Option Nat
  pollDur : Nat → Nat

/-- Whether the stop-check numbered `c` observes `_stop_event` set. -/
def stopSeen (env : Env) (c : Nat) : Bool :=
  match env.stopFrom with
  | some s => decide (s ≤ c)
  | none => false

/-- How the polling loop of `_login_thread_func` is left. -/
inductive LoopExit where
  | stopExit
  | success (cookies : List (String × String))
  | raised (e : RunErr)
  | fuelOut
deriving Repr, DecidableEq

/-- Result of one iteration of the polling loop: either continue with the
emitted events and the new elapsed time, or leave the loop. -/
inductive StepRes where
  | next (evs : List Event) (t' : Nat)
  | exit (evs : List Event) (e : LoopExit)
deriving Repr, DecidableEq

/-- Events of a `StepRes`. -/
def StepRes.evs : StepRes → List Event
  | .next evs _ => evs
  | .exit evs _ => evs

/-- The cookie mapping of an exchange response:
`login_result.get("data", {}).get("cookie", {})` (line 349). -/
def cookiesOf (lr : LoginResp) : List (String × String) :=
  match lr.data with
  | some d => d.cookie
  | none => []

/-- The `status == 2` arm of the loop (source lines 344-358): exchange
the confirmed session for cookies.  `post_qrcode_result` may raise; a
falsy or `state`-false result raises `RuntimeError`; an empty cookie
mapping raises `RuntimeError`; otherwise the cookies are displayed and
the loop `break`s in success. -/
def confirmedBranch (env : Env) (uid : String) : List Event × LoopExit :=
  match post_qrcode_result uid (.str env.app) env.exchangeNet with
  | (exEvs, .error e) =>
      (Event.statusUpdate "已确认登录! 获取 Cookie..." :: exEvs, .raised e)
  | (exEvs, .ok login_result) =>
      if login_result.state then
        if cookiesOf login_result = [] then
          (Event.statusUpdate "已确认登录! 获取 Cookie..." :: exEvs,
            .raised (.runtimeError "获取 Cookie 成功，但 Cookie 为空。"))
        else
          (Event.statusUpdate "已确认登录! 获取 Cookie..." :: exEvs ++
            [.displayCookies (cookiesOf login_result), .statusUpdate "登录成功!",
             .showInfo ("登录成功！(" ++ env.app ++ " App) Cookie 已显示。")],
            .success (cookiesOf login_result))
      else
        (Event.statusUpdate "已确认登录! 获取 Cookie..." :: exEvs,
          .raised (.runtimeError ("获取 Cookie 失败 (" ++ env.app ++ " App): "
            ++ pyOrElse login_result.msg (login_result.error.getD "未知错误"))))

/-- The shape of one poll response, as the loop's `if/elif` chain
(source lines 326-367) distinguishes it: a falsy body, a `state`-false
body, the five documented status codes, the client's own `-99` transient
marker, or an unrecognized status. -/
inductive PollOutcome where
  | emptyResp
  | stateFalse (r : StatusResp)
  | waiting (r : StatusResp)
  | scanned (r : StatusResp)
  | confirmed (r : StatusResp)
  | expired (r : StatusResp)
  | cancelled (r : StatusResp)
  | transient (r : StatusResp)
  | unknown (r : StatusResp)
deriving Repr, DecidableEq

/-- Which branch of the loop's response dispatch a response selects,
in the source's evaluation order. -/
def classify : Option StatusResp → PollOutcome
  | none => .emptyResp
  | some r =>
      if r.state = false then .stateFalse r
      else if (r.data.getD {}).status = some 0 then .waiting r
      else if (r.data.getD {}).status = some 1 then .scanned r
      else if (r.data.getD {}).status = some 2 then .confirmed r
      else if (r.data.getD {}).status = some (-1) then .expired r
      else if (r.data.getD {}).status = some (-2) then .cancelled r
      else if (r.data.getD {}).status = some (-99) then .transient r
      else .unknown r

/-- Handling of one poll response (source lines 326-367), after the two
stop checks around the call passed.  Events `[sleepSec 2, callPoll k]`
are those already emitted by the iteration before the response is
examined. -/
def classifyResp (env : Env) (uid : String) (k t : Nat) (resp : Option StatusResp) :
    StepRes :=
  match classify resp with
  -- `if not status_resp: ... continue`
  | .emptyResp =>
      .next [.sleepSec 2, .callPoll k, .statusUpdate "错误: 轮询状态收到空响应"]
        (t + 2 + env.pollDur k)
  -- `if not status_resp.get("state"): ... continue`
  | .stateFalse r =>
      .next [.sleepSec 2, .callPoll k, .statusUpdate
          ("错误: " ++ pyOrElse r.msg (r.error.getD "轮询状态失败"))]
        (t + 2 + env.pollDur k)
  | .waiting _ =>
      .next [.sleepSec 2, .callPoll k, .statusUpdate "等待扫码..."]
        (t + 2 + env.pollDur k)
  | .scanned _ =>
      .next [.sleepSec 2, .callPoll k, .statusUpdate "已扫描，请在手机上确认登录..."]
        (t + 2 + env.pollDur k)
  | .confirmed _ =>
      .exit ([.sleepSec 2, .callPoll k] ++ (confirmedBranch env uid).1)
        (confirmedBranch env uid).2
  | .expired r =>
      .exit [.sleepSec 2, .callPoll k] (.raised (.runtimeError
        ("二维码已过期 (" ++ ((r.data.getD {}).msg.getD "") ++ ")，请重新获取。")))
  | .cancelled r =>
      .exit [.sleepSec 2, .callPoll k] (.raised (.runtimeError
        ("已取消登录 (" ++ ((r.data.getD {}).msg.getD "") ++ ")。")))
  | .transient r =>
      .next [.sleepSec 2, .callPoll k, .statusUpdate
          ("网络错误，重试中... (" ++ pyShowOpt r.error ++ ")")]
        (t + 2 + env.pollDur k)
  | .unknown r =>
      .next [.sleepSec 2, .callPoll k, .statusUpdate
          ("未知状态: " ++ pyShowOptInt (r.data.getD {}).status)]
        (t + 2 + env.pollDur k)

/-- One iteration of the polling loop (source lines 310-367) at poll
index `k`, with elapsed monotonic seconds `t` since `start_time`.

The `try/except` around `get_qrcode_status` (lines 317-322, holding the
extra `time.sleep(3)`) translates to a plain call: `get_qrcode_status`
catches every exception internally (lines 77-84) and returns on all
paths, so the handler is unreachable. -/
def loopIter (env : Env) (payload : TokenData) (uid : String) (k t : Nat) : StepRes :=
  -- while guard: `self.polling_active and not self._stop_event.is_set()`
  if stopSeen env (3*k) then .exit [] .stopExit
  -- `if time.monotonic() - start_time > timeout_seconds: raise`
  else if t > 180 then
    .exit [] (.raised (.runtimeError "扫码超时，请重新获取二维码。"))
  -- `time.sleep(2)` , then `if self._stop_event.is_set(): break`
  else if stopSeen env (3*k+1) then .exit [.sleepSec 2] .stopExit
  -- the poll itself, then `if self._stop_event.is_set(): break`
  else if stopSeen env (3*k+2) then .exit [.sleepSec 2, .callPoll k] .stopExit
  else classifyResp env uid k t (get_qrcode_status payload (env.pollNet k))

/-- Outcome of the whole polling loop: events, the poll index of the
iteration that left the loop, and how it left. -/
structure LoopOut where
  evs : List Event
  kEnd : Nat
  leave : LoopExit
deriving Repr, DecidableEq

/-- Prepend the events of one finished iteration to the outcome of the
rest of the loop. -/
def LoopOut.consEvs (evs : List Event) (out : LoopOut) : LoopOut :=
  { evs := evs ++ out.evs, kEnd := out.kEnd, leave := out.leave }

/-- The polling loop, by iteration on `fuel`.  Each live iteration
advances elapsed time by at least 2 seconds (the `time.sleep(2)`) and the
loop raises once elapsed time exceeds 180, so fuel 92 is enough from
`t = 0` (`pollLoop_no_fuelOut`); `fuelOut` is a model artifact, not a
program behaviour. -/
def pollLoop (env : Env) (payload : TokenData) (uid : String) :
    Nat → Nat → Nat → LoopOut
  | 0, k, _ => { evs := [], kEnd := k, leave := .fuelOut }
  | fuel+1, k, t =>
      match loopIter env payload uid k t with
      | .exit evs e => { evs := evs, kEnd := k, leave := e }
      | .next evs t' => LoopOut.consEvs evs (pollLoop env payload uid fuel (k+1) t')

/-- Terminal outcome of one worker-thread run. -/
inductive Terminal where
  | success (cookies : List (String × String))
  | stopped
  | failed (e : RunErr)
  | fuelOut
deriving Repr, DecidableEq

/-- Result of one worker-thread run: observable events, terminal
outcome, and the final value of the `polling_active` guard. -/
structure RunResult where
  trace : List Event
  terminal : Terminal
  pollingActive : Bool
deriving Repr, DecidableEq

/-- `RunErr` rendered as `str(e)` for the final `show_error` (line 374). -/
def RunErr.text : RunErr → String
  | .connectionError m => m
  | .runtimeError m => m
  | .valueError m => m
  | .keyError m => m

/-- The events emitted before the polling loop on the happy path: the two
status updates and remote calls of token acquisition and image download,
the display of the image (or the non-fatal display error), and the
entering-the-loop status update. -/
def preTrace (displayFails : Bool) : List Event :=
  [.statusUpdate "获取 Token...", .callToken,
   .statusUpdate "下载二维码图片...", .callImage]
  ++ (if displayFails then [Event.showError "无法显示二维码"] else [Event.displayQr])
  ++ [.statusUpdate "等待扫码..."]

/-- The body of the `try:` block of `_login_thread_func` (source lines
287-371): token acquisition and validation, image download and display,
then the polling loop and the after-loop stop message.  A raise anywhere
becomes a `.failed` terminal. -/
def loginThreadBody (env : Env) : List Event × Terminal :=
  match get_qrcode_token env.tokenNet with
  | .error e => ([.statusUpdate "获取 Token...", .callToken], .failed e)
  | .ok token_resp =>
    -- `if not token_resp or not token_resp.get("state"): raise RuntimeError`
    if token_resp.state = false then
      ([.statusUpdate "获取 Token...", .callToken],
        .failed (.runtimeError ("获取 Token 失败: "
          ++ pyOrElse token_resp.msg (token_resp.error.getD "未知错误"))))
    else
      match token_resp.data with
      -- `token_resp["data"]` raises KeyError when the key is absent,
      -- caught by the outer `except Exception`
      | none => ([.statusUpdate "获取 Token...", .callToken], .failed (.keyError "data"))
      | some tok =>
        -- `if "qrcode" not in ... or "uid" not in ...: raise RuntimeError`
        match tok.qrcode, tok.uid with
        | some _, some uid =>
          match get_qrcode uid env.imageNet with
          | .error e =>
              ([.statusUpdate "获取 Token...", .callToken,
                .statusUpdate "下载二维码图片...", .callImage], .failed e)
          | .ok _ =>
            -- `display_qr_code` catches its own exceptions (lines 218-231);
            -- `self.qrcode_token.pop("qrcode")` leaves the poll payload
            match pollLoop env { tok with qrcode := none } uid 92 0 0 with
            | ⟨loopEvs, _, .stopExit⟩ =>
                (preTrace env.displayFails ++ loopEvs ++ [.statusUpdate "操作已停止。"],
                  .stopped)
            | ⟨loopEvs, kEnd, .success cookies⟩ =>
                -- after `break`: `if self._stop_event.is_set(): update_status`
                (preTrace env.displayFails ++ loopEvs ++
                  (if stopSeen env (3*kEnd+3)
                    then [Event.statusUpdate "操作已停止。"] else []),
                  .success cookies)
            | ⟨loopEvs, _, .raised e⟩ =>
                (preTrace env.displayFails ++ loopEvs, .failed e)
            | ⟨loopEvs, _, .fuelOut⟩ =>
                (preTrace env.displayFails ++ loopEvs, .fuelOut)
        | _, _ =>
            ([.statusUpdate "获取 Token...", .callToken],
              .failed (.runtimeError "Token 响应格式不正确"))

/-- One full run of `_login_thread_func`: the `try` body, the
`except` arm (`show_error`, lines 373-374), and the `finally` arm, which
always resets `polling_active` to `False` (lines 375-377). -/
def loginThread (env : Env) : RunResult :=
  match loginThreadBody env with
  | (evs, .failed e) =>
      { trace := evs ++ [.showError ("登录过程中发生错误:\n" ++ e.text)],
        terminal := .failed e, pollingActive := false }
  | (evs, .success c) => { trace := evs, terminal := .success c, pollingActive := false }
  | (evs, .stopped) => { trace := evs, terminal := .stopped, pollingActive := false }
  | (evs, .fuelOut) => { trace := evs, terminal := .fuelOut, pollingActive := false }

/-- `start_login_process` admits a new session only when `polling_active`
is false (source lines 262-265). -/
def startLoginAllowed (pollingActive : Bool) : Bool :=
  !pollingActive

/-- Event classifiers used by the claims. -/
def Event.isPoll : Event → Bool
  | .callPoll _ => true
  | _ => false

def Event.isExchange : Event → Bool
  | .callExchange _ => true
  | _ => false

def Event.isSleep : Event → Bool
  | .sleepSec _ => true
  | _ => false

def Event.isRemoteCall : Event → Bool
  | .callToken => true
  | .callImage => true
  | .callPoll _ => true
  | .callExchange _ => true
  | _ => false

/-- The exchange result seen by the loop: `post_qrcode_result`'s result
does not depend on `uid`, so it is a function of the environment alone. -/
def exchangeRes (env : Env) : Except RunErr LoginResp :=
  (post_qrcode_result "" (.str env.app) env.exchangeNet).2

/-- Whether poll `k`'s response reports `Confirmed`: a truthy `state` and
`data.status == 2`. -/
def pollConfirmed (env : Env) (k : Nat) : Bool :=
  match classify (get_qrcode_status {} (env.pollNet k)) with
  | .confirmed _ => true
  | _ => false

/-! ## Basic lemmas about the session client -/

/-- `post_qrcode_result` ignores `uid` everywhere but in the request
payload, so its result is a function of app and network alone. -/
theorem exchangeRes_eq (env : Env) (uid : String) :
    (post_qrcode_result uid (.str env.app) env.exchangeNet).2 = exchangeRes env := rfl

/-- The requests issued by `post_qrcode_result`: none on a validation
failure, exactly one POST otherwise. -/
theorem post_qrcode_result_events (uid : String) (app : PyVal) (net : NetResult LoginResp) :
    (post_qrcode_result uid app net).1 = [] ∨
      ∃ a, (post_qrcode_result uid app net).1 = [Event.callExchange (exchangeApi a)] := by
  unfold post_qrcode_result
  cases h : get_enum_name app with
  | error e => simp
  | ok a => right; exact ⟨a, rfl⟩

theorem post_qrcode_result_events_of_error (uid : String) (app : PyVal)
    (net : NetResult LoginResp) (m : String) (h : get_enum_name app = .error m) :
    (post_qrcode_result uid app net).1 = [] ∧
      (post_qrcode_result uid app net).2
        = .error (.valueError ("Invalid app type provided: " ++ app.text)) := by
  unfold post_qrcode_result
  rw [h]
  exact ⟨rfl, rfl⟩

theorem post_qrcode_result_exch_mem (uid : String) (app : PyVal) (net : NetResult LoginResp)
    (api : String) (h : Event.callExchange api ∈ (post_qrcode_result uid app net).1) :
    (get_enum_name app).isOk = true := by
  cases he : get_enum_name app with
  | error e =>
      rcases post_qrcode_result_events_of_error uid app net e he with ⟨h1, h2⟩
      rw [h1] at h
      simp at h
  | ok a => rfl

/-! ## Lemmas about the `Confirmed` branch -/

/-- Every event of the `Confirmed` branch is a status update, the
exchange request, the cookie display, or the info dialog. -/
theorem confirmedBranch_shape (env : Env) (uid : String) (e : Event)
    (h : e ∈ (confirmedBranch env uid).1) :
    (∃ m, e = Event.statusUpdate m) ∨ (∃ api, e = Event.callExchange api) ∨
      (∃ c, e = Event.displayCookies c) ∨ (∃ m, e = Event.showInfo m) := by
  rcases hp : post_qrcode_result uid (.str env.app) env.exchangeNet with ⟨exEvs, res⟩
  have hexs : ∀ x ∈ exEvs, ∃ api, x = Event.callExchange api := by
    rcases post_qrcode_result_events uid (.str env.app) env.exchangeNet with h0 | ⟨a, h0⟩ <;>
      rw [hp] at h0 <;> simp at h0 <;> subst h0 <;> simp
  rcases res with er | lr
  · simp [confirmedBranch, hp] at h
    aesop
  · by_cases hstate : lr.state = true <;> by_cases hc : cookiesOf lr = [] <;>
      simp [confirmedBranch, hp, hstate, hc] at h <;> aesop

theorem confirmedBranch_noPoll (env : Env) (uid : String) (j : Nat) :
    Event.callPoll j ∉ (confirmedBranch env uid).1 := by
  intro h
  rcases confirmedBranch_shape env uid _ h with ⟨m, hm⟩ | ⟨api, hm⟩ | ⟨c, hm⟩ | ⟨m, hm⟩ <;>
    simp at hm

theorem confirmedBranch_noSleep (env : Env) (uid : String) (n : Nat) :
    Event.sleepSec n ∉ (confirmedBranch env uid).1 := by
  intro h
  rcases confirmedBranch_shape env uid _ h with ⟨m, hm⟩ | ⟨api, hm⟩ | ⟨c, hm⟩ | ⟨m, hm⟩ <;>
    simp at hm

theorem confirmedBranch_exchCount (env : Env) (uid : String) :
    (confirmedBranch env uid).1.countP Event.isExchange ≤ 1 := by
  rcases hp : post_qrcode_result uid (.str env.app) env.exchangeNet with ⟨exEvs, res⟩
  have hevs : exEvs = [] ∨ ∃ a, exEvs = [Event.callExchange (exchangeApi a)] := by
    have := post_qrcode_result_events uid (.str env.app) env.exchangeNet
    rw [hp] at this; exact this
  rcases res with er | lr <;> simp only [confirmedBranch, hp] <;>
    [skip; (split <;> [split; skip])] <;>
    rcases hevs with rfl | ⟨a, rfl⟩ <;>
    simp [List.countP_cons, List.countP_append, Event.isExchange]

theorem confirmedBranch_exch_mem (env : Env) (uid : String) (api : String)
    (h : Event.callExchange api ∈ (confirmedBranch env uid).1) :
    (get_enum_name (.str env.app)).isOk = true := by
  rcases he : get_enum_name (.str env.app) with m | a
  · rcases post_qrcode_result_events_of_error uid (.str env.app) env.exchangeNet m he
      with ⟨h1, h2⟩
    rcases hp : post_qrcode_result uid (.str env.app) env.exchangeNet with ⟨exEvs, res⟩
    rw [hp] at h1 h2; simp at h1 h2; subst h1; subst h2
    simp [confirmedBranch, hp] at h
  · rfl

theorem confirmedBranch_of_error (env : Env) (uid : String) (e : RunErr)
    (h : exchangeRes env = .error e) :
    (confirmedBranch env uid).2 = .raised e := by
  rcases hp : post_qrcode_result uid (.str env.app) env.exchangeNet with ⟨exEvs, res⟩
  have : res = .error e := by
    rw [← h, ← exchangeRes_eq env uid, hp]
  subst this
  simp [confirmedBranch, hp]

theorem confirmedBranch_of_empty (env : Env) (uid : String) (lr : LoginResp)
    (h : exchangeRes env = .ok lr) (hs : lr.state = true) (hc : cookiesOf lr = []) :
    (confirmedBranch env uid).2
      = .raised (.runtimeError "获取 Cookie 成功，但 Cookie 为空。") := by
  rcases hp : post_qrcode_result uid (.str env.app) env.exchangeNet with ⟨exEvs, res⟩
  have : res = .ok lr := by
    rw [← h, ← exchangeRes_eq env uid, hp]
  subst this
  simp [confirmedBranch, hp, hs, hc]

theorem confirmedBranch_cookies (env : Env) (uid : String)
    (c : List (String × String)) (h : Event.displayCookies c ∈ (confirmedBranch env uid).1) :
    ∃ lr, exchangeRes env = .ok lr ∧ lr.state = true ∧ cookiesOf lr = c ∧ c ≠ [] := by
  rcases hp : post_qrcode_result uid (.str env.app) env.exchangeNet with ⟨exEvs, res⟩
  have hres : exchangeRes env = res := by
    rw [← exchangeRes_eq env uid, hp]
  have hevs : exEvs = [] ∨ ∃ a, exEvs = [Event.callExchange (exchangeApi a)] := by
    have := post_qrcode_result_events uid (.str env.app) env.exchangeNet
    rw [hp] at this; exact this
  have hexs : ∀ x ∈ exEvs, ∃ api, x = Event.callExchange api := by
    rcases post_qrcode_result_events uid (.str env.app) env.exchangeNet with h0 | ⟨a, h0⟩ <;>
      rw [hp] at h0 <;> simp at h0 <;> subst h0 <;> simp
  rcases res with er | lr
  · simp [confirmedBranch, hp] at h
    rcases hexs _ h with ⟨api, hx⟩
    simp at hx
  · by_cases hstate : lr.state = true <;> by_cases hc : cookiesOf lr = [] <;>
      simp [confirmedBranch, hp, hstate, hc] at h
    · rcases hexs _ h with ⟨api, hx⟩; simp at hx
    · rcases h with h | h
      · rcases hexs _ h with ⟨api, hx⟩; simp at hx
      · exact ⟨lr, hres, hstate, h.symm, by rw [h]; exact hc⟩
    · rcases hexs _ h with ⟨api, hx⟩; simp at hx
    · rcases hexs _ h with ⟨api, hx⟩; simp at hx

/-! ## Lemmas about one polling-loop iteration -/

theorem confirmedBranch_ne_fuelOut (env : Env) (uid : String) :
    (confirmedBranch env uid).2 ≠ .fuelOut := by
  rcases hp : post_qrcode_result uid (.str env.app) env.exchangeNet with ⟨exEvs, res⟩
  rcases res with er | lr
  · simp [confirmedBranch, hp]
  · by_cases hstate : lr.state = true <;> by_cases hc : cookiesOf lr = [] <;>
      simp [confirmedBranch, hp, hstate, hc]

/-- A `confirmed` classification means: the response body was present,
truthy, and carried `status == 2`. -/
theorem classify_confirmed (resp : Option StatusResp) (r : StatusResp)
    (h : classify resp = .confirmed r) :
    resp = some r ∧ r.state = true ∧ (r.data.getD {}).status = some 2 := by
  rcases resp with _ | r'
  · simp [classify] at h
  · unfold classify at h
    by_cases hs : r'.state = false
    · simp [hs] at h
    · by_cases h0 : (r'.data.getD {}).status = some 0
      · simp [hs, h0] at h
      · by_cases h1 : (r'.data.getD {}).status = some 1
        · simp [hs, h0, h1] at h
        · by_cases h2 : (r'.data.getD {}).status = some 2
          · simp [hs, h0, h1, h2] at h
            subst h
            refine ⟨rfl, ?_, h2⟩
            revert hs
            cases r'.state <;> simp
          · by_cases h3 : (r'.data.getD {}).status = some (-1)
            · simp [hs, h0, h1, h2, h3] at h
            · by_cases h4 : (r'.data.getD {}).status = some (-2)
              · simp [hs, h0, h1, h2, h3, h4] at h
              · by_cases h5 : (r'.data.getD {}).status = some (-99)
                · simp [hs, h0, h1, h2, h3, h4, h5] at h
                · simp [hs, h0, h1, h2, h3, h4, h5] at h

/-- A truthy response whose status is outside the recognized set is
classified `unknown`. -/
theorem classify_unknown (r : StatusResp) (hstate : r.state = true)
    (hst : (r.data.getD {}).status ∉
      ([some 0, some 1, some 2, some (-1), some (-2), some (-99)] : List (Option Int))) :
    classify (some r) = .unknown r := by
  simp only [List.mem_cons, List.mem_singleton] at hst
  push_neg at hst
  obtain ⟨h0, h1, h2, h3, h4, h5⟩ := hst
  simp [classify, hstate, h0, h1, h2, h3, h4, h5]

/-- The only sleep the response classifier can report is the fixed 2s. -/
theorem classifyResp_sleep (env : Env) (u : String) (k t : Nat) (resp : Option StatusResp)
    (n : Nat) (h : Event.sleepSec n ∈ (classifyResp env u k t resp).evs) : n = 2 := by
  cases hc : classify resp <;>
    simp_all [classifyResp, hc, StepRes.evs, confirmedBranch_noSleep]

theorem classifyResp_poll (env : Env) (u : String) (k t : Nat) (resp : Option StatusResp)
    (j : Nat) (h : Event.callPoll j ∈ (classifyResp env u k t resp).evs) : j = k := by
  cases hc : classify resp <;>
    simp_all [classifyResp, hc, StepRes.evs, confirmedBranch_noPoll]

theorem classifyResp_next (env : Env) (u : String) (k t : Nat) (resp : Option StatusResp)
    (evs : List Event) (t' : Nat) (h : classifyResp env u k t resp = .next evs t') :
    evs.countP Event.isExchange = 0 ∧ (∀ c, Event.displayCookies c ∉ evs) ∧
      t' = t + 2 + env.pollDur k := by
  cases hc : classify resp <;> simp only [classifyResp, hc] at h
  case confirmed r => simp at h
  case expired r => simp at h
  case cancelled r => simp at h
  all_goals
    injection h with hevs ht'
    subst hevs
    subst ht'
    refine ⟨by simp [List.countP_cons, Event.isExchange], by intro c; simp, rfl⟩

theorem classifyResp_exchCount (env : Env) (u : String) (k t : Nat)
    (resp : Option StatusResp) :
    (classifyResp env u k t resp).evs.countP Event.isExchange ≤ 1 := by
  cases hc : classify resp <;>
    simp_all [classifyResp, hc, StepRes.evs, List.countP_cons, List.countP_append,
      Event.isExchange, confirmedBranch_exchCount]

/-- An exchange request is issued only on a `Confirmed` response (truthy
`state`, `status == 2`), in the same iteration as its poll, only with a
validated app, and the iteration then exits with the `Confirmed`-branch
outcome. -/
theorem classifyResp_exch (env : Env) (u : String) (k t : Nat) (resp : Option StatusResp)
    (api : String) (h : Event.callExchange api ∈ (classifyResp env u k t resp).evs) :
    (∃ r, resp = some r ∧ r.state = true ∧ (r.data.getD {}).status = some 2) ∧
      Event.callPoll k ∈ (classifyResp env u k t resp).evs ∧
      (get_enum_name (.str env.app)).isOk = true ∧
      classifyResp env u k t resp
        = .exit ([.sleepSec 2, .callPoll k] ++ (confirmedBranch env u).1)
            (confirmedBranch env u).2 := by
  cases hc : classify resp
  case confirmed r =>
    refine ⟨⟨r, classify_confirmed resp r hc⟩, ?_, ?_, ?_⟩
    · simp [classifyResp, hc, StepRes.evs]
    · refine confirmedBranch_exch_mem env u api ?_
      simpa [classifyResp, hc, StepRes.evs] using h
    · simp [classifyResp, hc]
  all_goals simp_all [classifyResp, hc, StepRes.evs]

theorem classifyResp_cookies (env : Env) (u : String) (k t : Nat) (resp : Option StatusResp)
    (c : List (String × String))
    (h : Event.displayCookies c ∈ (classifyResp env u k t resp).evs) :
    ∃ lr, exchangeRes env = .ok lr ∧ lr.state = true ∧ cookiesOf lr = c ∧ c ≠ [] := by
  cases hc : classify resp <;> simp_all [classifyResp, hc, StepRes.evs]
  case confirmed r => exact confirmedBranch_cookies env u c (by simp_all)

theorem classifyResp_exit_ne_fuelOut (env : Env) (u : String) (k t : Nat)
    (resp : Option StatusResp) (evs : List Event) (e : LoopExit)
    (h : classifyResp env u k t resp = .exit evs e) : e ≠ .fuelOut := by
  cases hc : classify resp <;> simp only [classifyResp, hc] at h
  case confirmed r =>
    injection h with h1 h2
    subst h2
    exact confirmedBranch_ne_fuelOut env u
  case expired r =>
    injection h with h1 h2
    subst h2
    simp
  case cancelled r =>
    injection h with h1 h2
    subst h2
    simp
  all_goals simp at h

/-- Case analysis for one loop iteration: the four early exits (stop
observed at the guard, timeout, stop observed after the sleep, stop
observed after the poll), or the response dispatch with all stop checks
negative and the ceiling unexpired. -/
theorem loopIter_cases (env : Env) (p : TokenData) (u : String) (k t : Nat) :
    (stopSeen env (3*k) = true ∧ loopIter env p u k t = .exit [] .stopExit) ∨
    (stopSeen env (3*k) = false ∧ t > 180 ∧
      loopIter env p u k t
        = .exit [] (.raised (.runtimeError "扫码超时，请重新获取二维码。"))) ∨
    (stopSeen env (3*k) = false ∧ t ≤ 180 ∧ stopSeen env (3*k+1) = true ∧
      loopIter env p u k t = .exit [.sleepSec 2] .stopExit) ∨
    (stopSeen env (3*k) = false ∧ t ≤ 180 ∧ stopSeen env (3*k+1) = false ∧
      stopSeen env (3*k+2) = true ∧
      loopIter env p u k t = .exit [.sleepSec 2, .callPoll k] .stopExit) ∨
    (stopSeen env (3*k) = false ∧ t ≤ 180 ∧ stopSeen env (3*k+1) = false ∧
      stopSeen env (3*k+2) = false ∧
      loopIter env p u k t
        = classifyResp env u k t (get_qrcode_status p (env.pollNet k))) := by
  unfold loopIter
  by_cases h0 : stopSeen env (3*k) = true
  · exact Or.inl ⟨h0, by rw [if_pos h0]⟩
  · rw [if_neg h0]
    rw [Bool.not_eq_true] at h0
    by_cases ht : t > 180
    · exact Or.inr (Or.inl ⟨h0, ht, by rw [if_pos ht]⟩)
    · rw [if_neg ht]
      by_cases h1 : stopSeen env (3*k+1) = true
      · exact Or.inr (Or.inr (Or.inl ⟨h0, by omega, h1, by rw [if_pos h1]⟩))
      · rw [if_neg h1]
        rw [Bool.not_eq_true] at h1
        by_cases h2 : stopSeen env (3*k+2) = true
        · exact Or.inr (Or.inr (Or.inr (Or.inl ⟨h0, by omega, h1, h2, by rw [if_pos h2]⟩)))
        · rw [if_neg h2]
          rw [Bool.not_eq_true] at h2
          exact Or.inr (Or.inr (Or.inr (Or.inr ⟨h0, by omega, h1, h2, rfl⟩)))

/-- The only sleep the loop ever performs is the fixed `time.sleep(2)`;
in particular the `time.sleep(3)` of the dead `except` handler (source
line 321) never executes. -/
theorem loopIter_sleep (env : Env) (p : TokenData) (u : String) (k t n : Nat)
    (h : Event.sleepSec n ∈ (loopIter env p u k t).evs) : n = 2 := by
  rcases loopIter_cases env p u k t with
    ⟨h0, heq⟩ | ⟨h0, ht, heq⟩ | ⟨h0, ht, h1, heq⟩ | ⟨h0, ht, h1, h2, heq⟩ |
    ⟨h0, ht, h1, h2, heq⟩ <;> rw [heq] at h
  · simp [StepRes.evs] at h
  · simp [StepRes.evs] at h
  · simp [StepRes.evs] at h
    exact h
  · simp [StepRes.evs] at h
    exact h
  · exact classifyResp_sleep env u k t _ n h

/-- A poll request is issued by iteration `k` only for index `k`, and
only when the stop check right before the poll call read false. -/
theorem loopIter_poll (env : Env) (p : TokenData) (u : String) (k t j : Nat)
    (h : Event.callPoll j ∈ (loopIter env p u k t).evs) :
    j = k ∧ stopSeen env (3*k+1) = false := by
  rcases loopIter_cases env p u k t with
    ⟨h0, heq⟩ | ⟨h0, ht, heq⟩ | ⟨h0, ht, h1, heq⟩ | ⟨h0, ht, h1, h2, heq⟩ |
    ⟨h0, ht, h1, h2, heq⟩ <;> rw [heq] at h
  · simp [StepRes.evs] at h
  · simp [StepRes.evs] at h
  · simp [StepRes.evs] at h
  · simp [StepRes.evs] at h
    exact ⟨h, h1⟩
  · exact ⟨classifyResp_poll env u k t _ j h, h1⟩

/-- A continuing iteration issues no exchange request, emits no cookie
display, advances the clock by `2 + pollDur k`, and only runs when the
timeout ceiling has not been passed. -/
theorem loopIter_next (env : Env) (p : TokenData) (u : String) (k t : Nat)
    (evs : List Event) (t' : Nat) (h : loopIter env p u k t = .next evs t') :
    evs.countP Event.isExchange = 0 ∧ (∀ c, Event.displayCookies c ∉ evs) ∧
      t' = t + 2 + env.pollDur k ∧ t ≤ 180 := by
  rcases loopIter_cases env p u k t with
    ⟨h0, heq⟩ | ⟨h0, ht, heq⟩ | ⟨h0, ht, h1, heq⟩ | ⟨h0, ht, h1, h2, heq⟩ |
    ⟨h0, ht, h1, h2, heq⟩ <;> rw [heq] at h
  · simp at h
  · simp at h
  · simp at h
  · simp at h
  · rcases classifyResp_next env u k t _ evs t' h with ⟨ha, hb, hc⟩
    exact ⟨ha, hb, hc, ht⟩

/-- Any iteration issues at most one exchange request. -/
theorem loopIter_exchCount (env : Env) (p : TokenData) (u : String) (k t : Nat) :
    (loopIter env p u k t).evs.countP Event.isExchange ≤ 1 := by
  rcases loopIter_cases env p u k t with
    ⟨h0, heq⟩ | ⟨h0, ht, heq⟩ | ⟨h0, ht, h1, heq⟩ | ⟨h0, ht, h1, h2, heq⟩ |
    ⟨h0, ht, h1, h2, heq⟩ <;> rw [heq]
  · simp [StepRes.evs]
  · simp [StepRes.evs]
  · simp [StepRes.evs, List.countP_cons, Event.isExchange]
  · simp [StepRes.evs, List.countP_cons, Event.isExchange]
  · exact classifyResp_exchCount env u k t _

/-- If iteration `k` issues the exchange request then: the stop check
after the poll read false, poll `k` reported `Confirmed`, poll `k` was
issued in the same iteration, the app validated, and the iteration exits
the loop with the `Confirmed`-branch outcome. -/
theorem loopIter_exch (env : Env) (p : TokenData) (u : String) (k t : Nat) (api : String)
    (h : Event.callExchange api ∈ (loopIter env p u k t).evs) :
    stopSeen env (3*k+2) = false ∧ pollConfirmed env k = true ∧
      Event.callPoll k ∈ (loopIter env p u k t).evs ∧
      (get_enum_name (.str env.app)).isOk = true ∧
      ∃ evs, loopIter env p u k t = .exit evs (confirmedBranch env u).2 := by
  have hpay : get_qrcode_status {} (env.pollNet k) = get_qrcode_status p (env.pollNet k) :=
    rfl
  rcases loopIter_cases env p u k t with
    ⟨h0, heq⟩ | ⟨h0, ht, heq⟩ | ⟨h0, ht, h1, heq⟩ | ⟨h0, ht, h1, h2, heq⟩ |
    ⟨h0, ht, h1, h2, heq⟩ <;> rw [heq] at h
  · simp [StepRes.evs] at h
  · simp [StepRes.evs] at h
  · simp [StepRes.evs] at h
  · simp [StepRes.evs] at h
  · rcases classifyResp_exch env u k t _ api h with ⟨⟨r, hr, hstate, hst2⟩, hpk, hok, hcr⟩
    refine ⟨h2, ?_, ?_, hok, ?_⟩
    · unfold pollConfirmed
      rw [hpay, hr]
      have hcl : classify (some r) = .confirmed r := by
        simp [classify, hstate, hst2]
      rw [hcl]
    · rw [heq]
      exact hpk
    · rw [heq, hcr]
      exact ⟨_, rfl⟩

/-- A cookie display comes only from a successful nonempty exchange. -/
theorem loopIter_cookies (env : Env) (p : TokenData) (u : String) (k t : Nat)
    (c : List (String × String))
    (h : Event.displayCookies c ∈ (loopIter env p u k t).evs) :
    ∃ lr, exchangeRes env = .ok lr ∧ lr.state = true ∧ cookiesOf lr = c ∧ c ≠ [] := by
  rcases loopIter_cases env p u k t with
    ⟨h0, heq⟩ | ⟨h0, ht, heq⟩ | ⟨h0, ht, h1, heq⟩ | ⟨h0, ht, h1, h2, heq⟩ |
    ⟨h0, ht, h1, h2, heq⟩ <;> rw [heq] at h
  · simp [StepRes.evs] at h
  · simp [StepRes.evs] at h
  · simp [StepRes.evs] at h
  · simp [StepRes.evs] at h
  · exact classifyResp_cookies env u k t _ c h

/-- The loop body itself never exits with the fuel marker. -/
theorem loopIter_exit_ne_fuelOut (env : Env) (p : TokenData) (u : String) (k t : Nat)
    (evs : List Event) (e : LoopExit) (h : loopIter env p u k t = .exit evs e) :
    e ≠ .fuelOut := by
  rcases loopIter_cases env p u k t with
    ⟨h0, heq⟩ | ⟨h0, ht, heq⟩ | ⟨h0, ht, h1, heq⟩ | ⟨h0, ht, h1, h2, heq⟩ |
    ⟨h0, ht, h1, h2, heq⟩ <;> rw [heq] at h
  · rcases h with ⟨rfl, rfl⟩; simp
  · rcases h with ⟨rfl, rfl⟩; simp
  · rcases h with ⟨rfl, rfl⟩; simp
  · rcases h with ⟨rfl, rfl⟩; simp
  · exact classifyResp_exit_ne_fuelOut env u k t _ evs e h

/-! ## Lemmas about the polling loop -/

theorem pollLoop_succ_exit (env : Env) (p : TokenData) (u : String) {m k t : Nat}
    {evs : List Event} {e : LoopExit} (hi : loopIter env p u k t = .exit evs e) :
    pollLoop env p u (m+1) k t = { evs := evs, kEnd := k, leave := e } := by
  simp only [pollLoop, hi]

theorem pollLoop_succ_next (env : Env) (p : TokenData) (u : String) {m k t : Nat}
    {evs : List Event} {t' : Nat} (hi : loopIter env p u k t = .next evs t') :
    pollLoop env p u (m+1) k t = LoopOut.consEvs evs (pollLoop env p u m (k+1) t') := by
  simp only [pollLoop, hi]

theorem pollLoop_kEnd_ge (env : Env) (p : TokenData) (u : String) :
    ∀ fuel k t, k ≤ (pollLoop env p u fuel k t).kEnd := by
  intro fuel
  induction fuel with
  | zero => intro k t; exact Nat.le_refl k
  | succ m ih =>
      intro k t
      cases hi : loopIter env p u k t with
      | exit evs e => rw [pollLoop_succ_exit env p u hi]
      | next evs t' =>
          rw [pollLoop_succ_next env p u hi]
          simp only [LoopOut.consEvs]
          exact Nat.le_trans (Nat.le_succ k) (ih (k+1) t')

theorem pollLoop_sleep (env : Env) (p : TokenData) (u : String) :
    ∀ fuel k t n, Event.sleepSec n ∈ (pollLoop env p u fuel k t).evs → n = 2 := by
  intro fuel
  induction fuel with
  | zero => intro k t n h; simp [pollLoop] at h
  | succ m ih =>
      intro k t n h
      cases hi : loopIter env p u k t with
      | exit evs e =>
          rw [pollLoop_succ_exit env p u hi] at h
          exact loopIter_sleep env p u k t n (by rw [hi]; simpa [StepRes.evs] using h)
      | next evs t' =>
          rw [pollLoop_succ_next env p u hi] at h
          simp only [LoopOut.consEvs, List.mem_append] at h
          rcases h with h | h
          · exact loopIter_sleep env p u k t n (by rw [hi]; simpa [StepRes.evs] using h)
          · exact ih (k+1) t' n h

theorem pollLoop_poll (env : Env) (p : TokenData) (u : String) :
    ∀ fuel k t j, Event.callPoll j ∈ (pollLoop env p u fuel k t).evs →
      k ≤ j ∧ j ≤ (pollLoop env p u fuel k t).kEnd ∧ stopSeen env (3*j+1) = false := by
  intro fuel
  induction fuel with
  | zero => intro k t j h; simp [pollLoop] at h
  | succ m ih =>
      intro k t j h
      cases hi : loopIter env p u k t with
      | exit evs e =>
          rw [pollLoop_succ_exit env p u hi] at h ⊢
          have hj := loopIter_poll env p u k t j (by rw [hi]; simpa [StepRes.evs] using h)
          exact ⟨Nat.le_of_eq hj.1.symm, Nat.le_of_eq hj.1, hj.1 ▸ hj.2⟩
      | next evs t' =>
          rw [pollLoop_succ_next env p u hi] at h ⊢
          simp only [LoopOut.consEvs, List.mem_append] at h ⊢
          rcases h with h | h
          · have hj := loopIter_poll env p u k t j (by rw [hi]; simpa [StepRes.evs] using h)
            refine ⟨Nat.le_of_eq hj.1.symm, ?_, hj.1 ▸ hj.2⟩
            have := pollLoop_kEnd_ge env p u m (k+1) t'
            omega
          · have := ih (k+1) t' j h
            exact ⟨by omega, this.2.1, this.2.2⟩

theorem pollLoop_exchCount (env : Env) (p : TokenData) (u : String) :
    ∀ fuel k t, (pollLoop env p u fuel k t).evs.countP Event.isExchange ≤ 1 := by
  intro fuel
  induction fuel with
  | zero => intro k t; simp [pollLoop]
  | succ m ih =>
      intro k t
      cases hi : loopIter env p u k t with
      | exit evs e =>
          rw [pollLoop_succ_exit env p u hi]
          have := loopIter_exchCount env p u k t
          rw [hi] at this
          simpa [StepRes.evs] using this
      | next evs t' =>
          rw [pollLoop_succ_next env p u hi]
          simp only [LoopOut.consEvs, List.countP_append]
          have h0 := (loopIter_next env p u k t evs t' hi).1
          have h1 := ih (k+1) t'
          omega

theorem pollLoop_exch (env : Env) (p : TokenData) (u : String) :
    ∀ fuel k t api, Event.callExchange api ∈ (pollLoop env p u fuel k t).evs →
      pollConfirmed env (pollLoop env p u fuel k t).kEnd = true ∧
        Event.callPoll (pollLoop env p u fuel k t).kEnd ∈ (pollLoop env p u fuel k t).evs ∧
        stopSeen env (3*(pollLoop env p u fuel k t).kEnd+2) = false ∧
        (get_enum_name (.str env.app)).isOk = true ∧
        (pollLoop env p u fuel k t).leave = (confirmedBranch env u).2 := by
  intro fuel
  induction fuel with
  | zero => intro k t api h; simp [pollLoop] at h
  | succ m ih =>
      intro k t api h
      cases hi : loopIter env p u k t with
      | exit evs e =>
          rw [pollLoop_succ_exit env p u hi] at h ⊢
          have hx := loopIter_exch env p u k t api (by rw [hi]; simpa [StepRes.evs] using h)
          rcases hx with ⟨hstop, hconf, hpk, hok, ⟨evs', heq⟩⟩
          rw [hi] at heq hpk
          injection heq with he1 he2
          simp [StepRes.evs] at hpk
          exact ⟨hconf, hpk, hstop, hok, he2⟩
      | next evs t' =>
          rw [pollLoop_succ_next env p u hi] at h ⊢
          simp only [LoopOut.consEvs, List.mem_append] at h ⊢
          rcases h with h | h
          · exfalso
            have h0 := (loopIter_next env p u k t evs t' hi).1
            have := List.countP_eq_zero.mp h0 _ h
            simp [Event.isExchange] at this
          · have := ih (k+1) t' api h
            exact ⟨this.1, Or.inr this.2.1, this.2.2.1, this.2.2.2.1, this.2.2.2.2⟩

theorem pollLoop_cookies (env : Env) (p : TokenData) (u : String) :
    ∀ fuel k t c, Event.displayCookies c ∈ (pollLoop env p u fuel k t).evs →
      ∃ lr, exchangeRes env = .ok lr ∧ lr.state = true ∧ cookiesOf lr = c ∧ c ≠ [] := by
  intro fuel
  induction fuel with
  | zero => intro k t c h; simp [pollLoop] at h
  | succ m ih =>
      intro k t c h
      cases hi : loopIter env p u k t with
      | exit evs e =>
          rw [pollLoop_succ_exit env p u hi] at h
          exact loopIter_cookies env p u k t c (by rw [hi]; simpa [StepRes.evs] using h)
      | next evs t' =>
          rw [pollLoop_succ_next env p u hi] at h
          simp only [LoopOut.consEvs, List.mem_append] at h
          rcases h with h | h
          · exact loopIter_cookies env p u k t c (by rw [hi]; simpa [StepRes.evs] using h)
          · exact ih (k+1) t' c h

/-- With enough fuel (`181 ≤ t + 2*fuel`, e.g. fuel 92 from `t = 0`) the
loop always reaches a genuine exit: the fuel marker is unreachable. -/
theorem pollLoop_no_fuelOut (env : Env) (p : TokenData) (u : String) :
    ∀ fuel k t, 181 ≤ t + 2*fuel →
      (pollLoop env p u (fuel+1) k t).leave ≠ .fuelOut := by
  intro fuel
  induction fuel with
  | zero =>
      intro k t hb
      cases hi : loopIter env p u k t with
      | exit evs e =>
          rw [pollLoop_succ_exit env p u hi]
          exact loopIter_exit_ne_fuelOut env p u k t evs e hi
      | next evs t' =>
          exfalso
          have := (loopIter_next env p u k t evs t' hi).2.2.2
          omega
  | succ m ih =>
      intro k t hb
      cases hi : loopIter env p u k t with
      | exit evs e =>
          rw [pollLoop_succ_exit env p u hi]
          exact loopIter_exit_ne_fuelOut env p u k t evs e hi
      | next evs t' =>
          rw [pollLoop_succ_next env p u hi]
          simp only [LoopOut.consEvs]
          have hn := loopIter_next env p u k t evs t' hi
          exact ih (k+1) t' (by omega)

/-! ## Decomposition of a whole worker run -/

/-- How a loop exit is reported as the run's terminal outcome. -/
def terminalOfLeave : LoopExit → Terminal
  | .stopExit => .stopped
  | .success c => .success c
  | .raised e => .failed e
  | .fuelOut => .fuelOut

/-- Events only the polling loop can produce: polls, the exchange
request, sleeps, and the cookie display. -/
def Event.isLoopish : Event → Bool
  | .callPoll _ => true
  | .callExchange _ => true
  | .sleepSec _ => true
  | .displayCookies _ => true
  | _ => false

theorem preTrace_loopish (b : Bool) : (preTrace b).countP Event.isLoopish = 0 := by
  cases b <;>
    simp [preTrace, List.countP_cons, List.countP_append, Event.isLoopish]

theorem not_mem_of_countP_loopish {l : List Event} (h : l.countP Event.isLoopish = 0)
    (e : Event) (he : Event.isLoopish e = true) : e ∉ l := by
  intro hm
  have := List.countP_eq_zero.mp h e hm
  simp [he] at this

/-- Every worker run either fails before the polling loop (trace free of
loop events), or its trace is the pre-loop prefix, the loop's events, and
a loop-free suffix, with the terminal outcome determined by how the loop
was left. -/
theorem loginThreadBody_decomp (env : Env) :
    ((loginThreadBody env).1.countP Event.isLoopish = 0) ∨
    ∃ payload uid post,
      (loginThreadBody env).1
        = preTrace env.displayFails ++ (pollLoop env payload uid 92 0 0).evs ++ post ∧
      post.countP Event.isLoopish = 0 ∧
      (loginThreadBody env).2 = terminalOfLeave (pollLoop env payload uid 92 0 0).leave := by
  cases htok : get_qrcode_token env.tokenNet with
  | error e =>
      left
      simp [loginThreadBody, htok, List.countP_cons, Event.isLoopish]
  | ok tr =>
      by_cases hstate : tr.state = false
      · left
        simp [loginThreadBody, htok, hstate, List.countP_cons, Event.isLoopish]
      · cases hdata : tr.data with
        | none =>
            left
            simp [loginThreadBody, htok, hstate, hdata, List.countP_cons, Event.isLoopish]
        | some tok =>
            cases hq : tok.qrcode with
            | none =>
                left
                simp [loginThreadBody, htok, hstate, hdata, hq, List.countP_cons,
                  Event.isLoopish]
            | some q =>
                cases hu : tok.uid with
                | none =>
                    left
                    simp [loginThreadBody, htok, hstate, hdata, hq, hu, List.countP_cons,
                      Event.isLoopish]
                | some uid =>
                    cases him : get_qrcode uid env.imageNet with
                    | error e =>
                        left
                        simp [loginThreadBody, htok, hstate, hdata, hq, hu, him,
                          List.countP_cons, Event.isLoopish]
                    | ok img =>
                        right
                        refine ⟨⟨some uid, tok.time, tok.sign, none⟩, uid, ?_⟩
                        rcases hout :
                            pollLoop env ⟨some uid, tok.time, tok.sign, none⟩ uid 92 0 0
                          with ⟨loopEvs, kEnd, leave⟩
                        cases leave with
                        | stopExit =>
                            refine ⟨[.statusUpdate "操作已停止。"], ?_, ?_, ?_⟩ <;>
                              simp [loginThreadBody, htok, hstate, hdata, hq, hu, him,
                                hout, terminalOfLeave, List.countP_cons, Event.isLoopish]
                        | success c =>
                            refine ⟨if stopSeen env (3*kEnd+3)
                                then [Event.statusUpdate "操作已停止。"] else [], ?_, ?_, ?_⟩
                            · simp [loginThreadBody, htok, hstate, hdata, hq, hu, him, hout]
                            · by_cases hss : stopSeen env (3*kEnd+3) = true <;>
                                simp [hss, List.countP_cons, Event.isLoopish]
                            · simp [loginThreadBody, htok, hstate, hdata, hq, hu, him,
                                hout, terminalOfLeave]
                        | raised e =>
                            refine ⟨[], ?_, ?_, ?_⟩ <;>
                              simp [loginThreadBody, htok, hstate, hdata, hq, hu, him,
                                hout, terminalOfLeave]
                        | fuelOut =>
                            refine ⟨[], ?_, ?_, ?_⟩ <;>
                              simp [loginThreadBody, htok, hstate, hdata, hq, hu, him,
                                hout, terminalOfLeave]

/-- The `except` arm appends at most one `showError`; the terminal is
the body's. -/
theorem loginThread_trace (env : Env) :
    (loginThread env).terminal = (loginThreadBody env).2 ∧
    (loginThread env).trace
      = (loginThreadBody env).1 ++
          (match (loginThreadBody env).2 with
            | .failed e => [Event.showError ("登录过程中发生错误:\n" ++ e.text)]
            | _ => []) := by
  rcases hbody : loginThreadBody env with ⟨evs, term⟩
  cases term <;> simp [loginThread, hbody]

/-- `loginThread_decomp`: run-level version of `loginThreadBody_decomp`. -/
theorem loginThread_decomp (env : Env) :
    ((loginThread env).trace.countP Event.isLoopish = 0) ∨
    ∃ payload uid post,
      (loginThread env).trace
        = preTrace env.displayFails ++ (pollLoop env payload uid 92 0 0).evs ++ post ∧
      post.countP Event.isLoopish = 0 ∧
      (loginThread env).terminal = terminalOfLeave (pollLoop env payload uid 92 0 0).leave := by
  have htr := loginThread_trace env
  have hextra : (match (loginThreadBody env).2 with
      | Terminal.failed e => [Event.showError ("登录过程中发生错误:\n" ++ e.text)]
      | _ => []).countP Event.isLoopish = 0 := by
    cases (loginThreadBody env).2 <;> simp [List.countP_cons, Event.isLoopish]
  rcases loginThreadBody_decomp env with hd | ⟨payload, uid, post, h1, h2, h3⟩
  · left
    rw [htr.2]
    simp [List.countP_append, hd, hextra]
  · right
    refine ⟨payload, uid,
      post ++ (match (loginThreadBody env).2 with
        | .failed e => [Event.showError ("登录过程中发生错误:\n" ++ e.text)]
        | _ => []), ?_, ?_, ?_⟩
    · rw [htr.2, h1]
      simp [List.append_assoc]
    · simp [List.countP_append, h2, hextra]
    · rw [htr.1, h3]

/-- Specialized zero-count: any event class contained in `isLoopish`. -/
theorem countP_sub_loopish (l : List Event) (p : Event → Bool)
    (hp : ∀ e, p e = true → Event.isLoopish e = true)
    (h : l.countP Event.isLoopish = 0) : l.countP p = 0 := by
  have hmono := List.countP_mono_left (l := l) (p := p) (q := Event.isLoopish)
    (fun a _ ha => hp a ha)
  omega

/-- `pollLoop` does not read `displayFails`. -/
theorem pollLoop_displayFails (env : Env) (b : Bool) (p : TokenData) (u : String) :
    ∀ fuel k t,
      pollLoop { env with displayFails := b } p u fuel k t = pollLoop env p u fuel k t := by
  intro fuel
  induction fuel with
  | zero => intro k t; rfl
  | succ m ih =>
      intro k t
      have hiter : loopIter { env with displayFails := b } p u k t = loopIter env p u k t :=
        rfl
      cases hi : loopIter env p u k t with
      | exit evs e =>
          rw [pollLoop_succ_exit _ p u (hiter.trans hi), pollLoop_succ_exit env p u hi]
      | next evs t' =>
          rw [pollLoop_succ_next _ p u (hiter.trans hi), pollLoop_succ_next env p u hi, ih]

/-- On the happy path up to the loop (token ok and well-formed, image
fetched), the run is the pre-loop trace followed by the polling loop's
events and the loop's outcome. -/
theorem loginThreadBody_loop (env : Env) (tr : TokenResp) (tok : TokenData)
    (q uid : String) (img : List Nat)
    (htok : env.tokenNet = .ok tr) (hstate : tr.state = true) (hdata : tr.data = some tok)
    (hq : tok.qrcode = some q) (hu : tok.uid = some uid) (him : env.imageNet = .ok img) :
    loginThreadBody env
      = match pollLoop env ⟨some uid, tok.time, tok.sign, none⟩ uid 92 0 0 with
        | ⟨loopEvs, _, .stopExit⟩ =>
            (preTrace env.displayFails ++ loopEvs ++ [.statusUpdate "操作已停止。"],
              .stopped)
        | ⟨loopEvs, kEnd, .success cookies⟩ =>
            (preTrace env.displayFails ++ loopEvs ++
              (if stopSeen env (3*kEnd+3)
                then [Event.statusUpdate "操作已停止。"] else []),
              .success cookies)
        | ⟨loopEvs, _, .raised e⟩ => (preTrace env.displayFails ++ loopEvs, .failed e)
        | ⟨loopEvs, _, .fuelOut⟩ => (preTrace env.displayFails ++ loopEvs, .fuelOut) := by
  have hstate' : ¬ tr.state = false := by simp [hstate]
  simp [loginThreadBody, htok, get_qrcode_token, hstate', hdata, hq, hu, him, get_qrcode,
    preTrace]

/-! ## Concrete environments for witnesses and counterexamples -/

def goodTokenData : TokenData :=
  { uid := some "U1", time := some 1, sign := some "S", qrcode := some "QR" }

def goodToken : TokenResp := { state := true, data := some goodTokenData }

/-- A happy-path environment: token and image succeed, the first poll is
already `Confirmed`, the exchange returns one cookie, no cancellation. -/
def baseEnv : Env :=
  { app := "windows"
    tokenNet := .ok goodToken
    imageNet := .ok [1]
    displayFails := false
    pollNet := fun _ => .ok (some { state := true, data := some { status := some 2 } })
    exchangeNet := .ok { state := true, data := some { cookie := [("UID", "u")] } }
    stopFrom := none
    pollDur := fun _ => 0 }

def env_c2 : Env := { baseEnv with imageNet := .urlError "down" }

def env_c3 : Env := { baseEnv with exchangeNet := .urlError "refused" }

def env_c4 : Env :=
  { baseEnv with exchangeNet := .ok { state := true, data := some { cookie := [] } } }

def env_c5 : Env := { baseEnv with
  pollNet := fun k => if k = 0 then .urlError "neterr"
    else .ok (some { state := true, data := some { status := some 2 } }) }

def env_c6 : Env := { baseEnv with
  pollNet := fun _ => .ok (some { state := true, data := some { status := some 7 } }) }

def env_c7 : Env := { baseEnv with app := "foo" }

def env_c8 : Env := { baseEnv with stopFrom := some 0 }

def env_c8c : Env := { baseEnv with stopFrom := some 0, imageNet := .urlError "down" }

/-! ## The claims -/

/-- Claim C1: for every input payload, the status-poll operation
`get_qrcode_status` never raises to its caller — it is total, returning a
response on every transport outcome — and it maps a request timeout to
the Waiting outcome `{state: true, data: {status: 0}}`, and any other
transport or server error (`URLError`, `HTTPError`, or any other
exception) to the TransientError outcome
`{state: false, error: str(e), data: {status: -99}}`. -/
theorem c1_pollStatus_never_raises (payload : TokenData)
    (net : NetResult (Option StatusResp)) :
    (net = .timeout →
      get_qrcode_status payload net
        = some { state := true, msg := none, error := none,
                 data := some { status := some 0, msg := none } }) ∧
    (∀ e, (net = .urlError e ∨ net = .httpError e ∨ net = .otherError e) →
      get_qrcode_status payload net
        = some { state := false, msg := none, error := some e,
                 data := some { status := some (-99), msg := none } }) := by
  constructor
  · rintro rfl
    rfl
  · rintro e (rfl | rfl | rfl) <;> rfl

theorem c1_witness :
    get_qrcode_status goodTokenData (.urlError "connection refused")
      = some { state := false, msg := none, error := some "connection refused",
               data := some { status := some (-99), msg := none } } :=
  (c1_pollStatus_never_raises goodTokenData (.urlError "connection refused")).2
    "connection refused" (Or.inl rfl)

/-- Claim C9: after every terminal outcome of the login worker — success,
any raised error, expiry, cancellation, or external stop — the
active-session guard `polling_active` is `false` (the `finally` arm of
`_login_thread_func`), so `start_login_process`'s guard admits a later
start-login request. -/
theorem c9_pollingActive_reset (env : Env) :
    (loginThread env).pollingActive = false ∧
      startLoginAllowed (loginThread env).pollingActive = true := by
  rcases hbody : loginThreadBody env with ⟨evs, term⟩
  cases term <;> simp [loginThread, hbody, startLoginAllowed]

/-- Claim C10: the target-app argument of `post_qrcode_result` may be an
`AppEnum` member, a member's name string, or a member's value, and all
three resolve to the same canonical name in the request URL; any other
input raises `ValueError` before the network request is built (no request
event, result independent of the network). -/
theorem c10_target_app_forms (uid : String) (net net' : NetResult LoginResp) :
    (∀ a : AppEnum,
      get_enum_name (.enumMember a) = .ok a.name ∧
      get_enum_name (.str a.name) = .ok a.name ∧
      get_enum_name (.int a.value) = .ok a.name ∧
      (post_qrcode_result uid (.enumMember a) net).1
        = [Event.callExchange (exchangeApi a.name)] ∧
      (post_qrcode_result uid (.str a.name) net).1
        = [Event.callExchange (exchangeApi a.name)] ∧
      (post_qrcode_result uid (.int a.value) net).1
        = [Event.callExchange (exchangeApi a.name)]) ∧
    (∀ v m, get_enum_name v = .error m →
      (post_qrcode_result uid v net).1 = [] ∧
      post_qrcode_result uid v net = post_qrcode_result uid v net' ∧
      (post_qrcode_result uid v net).2
        = .error (.valueError ("Invalid app type provided: " ++ v.text))) := by
  constructor
  · intro a
    cases a <;> exact ⟨rfl, rfl, rfl, rfl, rfl, rfl⟩
  · intro v m h
    refine ⟨(post_qrcode_result_events_of_error uid v net m h).1, ?_,
      (post_qrcode_result_events_of_error uid v net m h).2⟩
    simp [post_qrcode_result, h]

theorem c10_witness :
    (post_qrcode_result "U1" (.str "foo") (.ok {})).1 = [] :=
  ((c10_target_app_forms "U1" (.ok {}) (.ok {})).2 (.str "foo")
    "foo is not a valid member or name in AppEnum" rfl).1

/-- Claim C6: for every poll whose response is accepted (truthy `state`)
but carries a status code outside the recognized set
{0, 1, 2, -1, -2, -99}, the iteration stays in the loop (the step is
`.next`, no terminal transition), and produces exactly one advisory
status update — the single `statusUpdate` of the unknown-status arm. -/
theorem c6_unknown_status_advisory (env : Env) (p : TokenData) (u : String) (k t : Nat)
    (r : StatusResp)
    (hresp : get_qrcode_status p (env.pollNet k) = some r)
    (hstate : r.state = true)
    (hst : (r.data.getD {}).status ∉
      ([some 0, some 1, some 2, some (-1), some (-2), some (-99)] : List (Option Int)))
    (h0 : stopSeen env (3*k) = false) (h1 : stopSeen env (3*k+1) = false)
    (h2 : stopSeen env (3*k+2) = false) (ht : t ≤ 180) :
    loopIter env p u k t
      = .next [.sleepSec 2, .callPoll k,
          .statusUpdate ("未知状态: " ++ pyShowOptInt (r.data.getD {}).status)]
        (t + 2 + env.pollDur k) := by
  rcases loopIter_cases env p u k t with
    ⟨ha, _⟩ | ⟨_, hb, _⟩ | ⟨_, _, hc, _⟩ | ⟨_, _, _, hd, _⟩ | ⟨_, _, _, _, heq⟩
  · rw [h0] at ha; cases ha
  · omega
  · rw [h1] at hc; cases hc
  · rw [h2] at hd; cases hd
  · rw [heq, hresp]
    have hcl := classify_unknown r hstate hst
    simp [classifyResp, hcl]

theorem c6_witness :
    loopIter env_c6 goodTokenData "U1" 0 0
      = .next [.sleepSec 2, .callPoll 0, .statusUpdate "未知状态: 7"] 2 := by
  have h := c6_unknown_status_advisory env_c6 goodTokenData "U1" 0 0
    { state := true, msg := none, error := none,
      data := some { status := some 7, msg := none } }
    rfl rfl (by decide) rfl rfl rfl (by omega)
  exact h

/-- Claim C2 counterexample: the claim as stated is false.  With a
successful token acquisition and a failing code-image *fetch*
(`get_qrcode` raises `ConnectionError`), the session aborts with a
Connectivity failure before any polling: the state machine never reaches
the polling phase (no poll calls, no entering-polling status update). -/
theorem c2_counterexample :
    (get_qrcode_token env_c2.tokenNet).isOk = true ∧
    (loginThread env_c2).terminal
        = .failed (.connectionError "Failed to download QR code image: down") ∧
      (loginThread env_c2).trace.countP Event.isPoll = 0 ∧
      Event.statusUpdate "等待扫码..." ∉ (loginThread env_c2).trace := by
  refine ⟨by decide, by decide, by decide, by decide⟩

/-- Claim C2 amended: only a failure of the local *display* of the
already-fetched image is non-fatal.  When token and image fetch succeed
and rendering fails, the failure is reported as a presentation error
(`show_error`), the machine still proceeds to the polling phase (the
waiting status update is emitted), and the terminal outcome is the same
as if rendering had succeeded.  A failure of the image *fetch* itself
aborts the session (`c2_counterexample`). -/
theorem c2_amended_display_failure_nonfatal (env : Env) (tr : TokenResp) (tok : TokenData)
    (q uid : String) (img : List Nat)
    (htok : env.tokenNet = .ok tr) (hstate : tr.state = true) (hdata : tr.data = some tok)
    (hq : tok.qrcode = some q) (hu : tok.uid = some uid) (him : env.imageNet = .ok img)
    (hdf : env.displayFails = true) :
    Event.showError "无法显示二维码" ∈ (loginThread env).trace ∧
      Event.statusUpdate "等待扫码..." ∈ (loginThread env).trace ∧
      (loginThread env).terminal
        = (loginThread { env with displayFails := false }).terminal := by
  have hb := loginThreadBody_loop env tr tok q uid img htok hstate hdata hq hu him
  have hb' := loginThreadBody_loop { env with displayFails := false } tr tok q uid img
    htok hstate hdata hq hu him
  have hpl : pollLoop { env with displayFails := false }
        ⟨some uid, tok.time, tok.sign, none⟩ uid 92 0 0
      = pollLoop env ⟨some uid, tok.time, tok.sign, none⟩ uid 92 0 0 :=
    pollLoop_displayFails env false _ uid 92 0 0
  rcases hpo : pollLoop env ⟨some uid, tok.time, tok.sign, none⟩ uid 92 0 0
    with ⟨loopEvs, kEnd, leave⟩
  rw [hpo] at hb
  rw [hpl, hpo] at hb'
  have htr := (loginThread_trace env).2
  have hterm := (loginThread_trace env).1
  have hterm' := (loginThread_trace { env with displayFails := false }).1
  cases leave with
  | stopExit =>
      refine ⟨?_, ?_, ?_⟩
      · rw [htr, hb]; simp [preTrace, hdf]
      · rw [htr, hb]; simp [preTrace, hdf]
      · rw [hterm, hterm', hb, hb']
  | success c =>
      refine ⟨?_, ?_, ?_⟩
      · rw [htr, hb]; simp [preTrace, hdf]
      · rw [htr, hb]; simp [preTrace, hdf]
      · rw [hterm, hterm', hb, hb']
  | raised e =>
      refine ⟨?_, ?_, ?_⟩
      · rw [htr, hb]; simp [preTrace, hdf]
      · rw [htr, hb]; simp [preTrace, hdf]
      · rw [hterm, hterm', hb, hb']
  | fuelOut =>
      refine ⟨?_, ?_, ?_⟩
      · rw [htr, hb]; simp [preTrace, hdf]
      · rw [htr, hb]; simp [preTrace, hdf]
      · rw [hterm, hterm', hb, hb']

theorem c2_witness :
    Event.showError "无法显示二维码" ∈ (loginThread { baseEnv with displayFails := true }).trace ∧
      Event.statusUpdate "等待扫码..." ∈ (loginThread { baseEnv with displayFails := true }).trace :=
  ⟨(c2_amended_display_failure_nonfatal { baseEnv with displayFails := true }
      goodToken goodTokenData "QR" "U1" [1] rfl rfl rfl rfl rfl rfl rfl).1,
   (c2_amended_display_failure_nonfatal { baseEnv with displayFails := true }
      goodToken goodTokenData "QR" "U1" [1] rfl rfl rfl rfl rfl rfl rfl).2.1⟩

/-- Claim C3: for every run, the result-exchange request is issued at
most once; whenever it is issued, there is a poll `k` that reported
`Confirmed`, that poll is in the trace, it is the last poll of the run,
and a failing exchange is fatal: the run terminates with exactly that
error (no retry). -/
theorem c3_exchange_once_after_confirmed (env : Env) :
    (loginThread env).trace.countP Event.isExchange ≤ 1 ∧
    ∀ api, Event.callExchange api ∈ (loginThread env).trace →
      ∃ k, pollConfirmed env k = true ∧
        Event.callPoll k ∈ (loginThread env).trace ∧
        (∀ j, Event.callPoll j ∈ (loginThread env).trace → j ≤ k) ∧
        (∀ e, exchangeRes env = .error e → (loginThread env).terminal = .failed e) := by
  have hexch_loopish : ∀ e : Event, Event.isExchange e = true → Event.isLoopish e = true := by
    intro e he; cases e <;> simp_all [Event.isExchange, Event.isLoopish]
  rcases loginThread_decomp env with hd | ⟨payload, uid, post, h1, h2, h3⟩
  · constructor
    · have := countP_sub_loopish _ Event.isExchange hexch_loopish hd
      omega
    · intro api hmem
      exact absurd hmem (not_mem_of_countP_loopish hd _ (by simp [Event.isLoopish]))
  · have hpre := preTrace_loopish env.displayFails
    constructor
    · rw [h1, List.countP_append, List.countP_append]
      have e1 := countP_sub_loopish _ Event.isExchange hexch_loopish hpre
      have e2 := countP_sub_loopish _ Event.isExchange hexch_loopish h2
      have e3 := pollLoop_exchCount env payload uid 92 0 0
      omega
    · intro api hmem
      rw [h1, List.mem_append, List.mem_append] at hmem
      rcases hmem with (hmem | hmem) | hmem
      · exact absurd hmem (not_mem_of_countP_loopish hpre _ (by simp [Event.isLoopish]))
      · have hx := pollLoop_exch env payload uid 92 0 0 api hmem
        refine ⟨(pollLoop env payload uid 92 0 0).kEnd, hx.1, ?_, ?_, ?_⟩
        · rw [h1, List.mem_append, List.mem_append]
          exact Or.inl (Or.inr hx.2.1)
        · intro j hj
          rw [h1, List.mem_append, List.mem_append] at hj
          rcases hj with (hj | hj) | hj
          · exact absurd hj (not_mem_of_countP_loopish hpre _ (by simp [Event.isLoopish]))
          · exact (pollLoop_poll env payload uid 92 0 0 j hj).2.1
          · exact absurd hj (not_mem_of_countP_loopish h2 _ (by simp [Event.isLoopish]))
        · intro e he
          rw [h3, hx.2.2.2.2, confirmedBranch_of_error env uid e he]
          rfl
      · exact absurd hmem (not_mem_of_countP_loopish h2 _ (by simp [Event.isLoopish]))

theorem c3_witness :
    (loginThread env_c3).terminal
      = .failed (.connectionError
          "Failed to post QR code result for app windows: refused") := by
  rcases (c3_exchange_once_after_confirmed env_c3).2 (exchangeApi "windows") (by decide)
    with ⟨k, hconf, hpk, hlast, hfail⟩
  exact hfail _ rfl

/-- Claim C4: whenever the exchange request was issued (which requires a
`Confirmed` poll, see C3) and the exchange response is a success whose
credential mapping is empty, the run terminates `Failed` — with the
empty-cookie `RuntimeError` — and no credentials are ever emitted to the
Presentation Sink. -/
theorem c4_empty_credentials_failed (env : Env) (lr : LoginResp) (api : String)
    (hex : Event.callExchange api ∈ (loginThread env).trace)
    (hres : exchangeRes env = .ok lr) (hstate : lr.state = true)
    (hempty : cookiesOf lr = []) :
    (loginThread env).terminal
        = .failed (.runtimeError "获取 Cookie 成功，但 Cookie 为空。") ∧
      ∀ c, Event.displayCookies c ∉ (loginThread env).trace := by
  rcases loginThread_decomp env with hd | ⟨payload, uid, post, h1, h2, h3⟩
  · exact absurd hex (not_mem_of_countP_loopish hd _ (by simp [Event.isLoopish]))
  · have hpre := preTrace_loopish env.displayFails
    rw [h1, List.mem_append, List.mem_append] at hex
    rcases hex with (hex | hex) | hex
    · exact absurd hex (not_mem_of_countP_loopish hpre _ (by simp [Event.isLoopish]))
    · have hx := pollLoop_exch env payload uid 92 0 0 api hex
      constructor
      · rw [h3, hx.2.2.2.2, confirmedBranch_of_empty env uid lr hres hstate hempty]
        rfl
      · intro c hc
        rw [h1, List.mem_append, List.mem_append] at hc
        rcases hc with (hc | hc) | hc
        · exact absurd hc (not_mem_of_countP_loopish hpre _ (by simp [Event.isLoopish]))
        · rcases pollLoop_cookies env payload uid 92 0 0 c hc with ⟨lr', ha, hb, hcc, hd'⟩
          rw [hres] at ha
          injection ha with ha
          subst ha
          rw [hempty] at hcc
          exact hd' hcc.symm
        · exact absurd hc (not_mem_of_countP_loopish h2 _ (by simp [Event.isLoopish]))
    · exact absurd hex (not_mem_of_countP_loopish h2 _ (by simp [Event.isLoopish]))

theorem c4_witness :
    (loginThread env_c4).terminal
      = .failed (.runtimeError "获取 Cookie 成功，但 Cookie 为空。") :=
  (c4_empty_credentials_failed env_c4
    { state := true, msg := none, error := none, data := some { cookie := [] } }
    (exchangeApi "windows") (by decide) rfl rfl rfl).1

/-- Claim C5 counterexample: the claim as stated is false.  In a run
whose first poll is a TransientError (transport `URLError`, reported as
the advisory `错误: neterr`), the machine issues the next poll after only
the fixed 2-second delay: the whole trace contains exactly two sleeps,
both of 2 seconds, and no extra 3-second backoff occurs. -/
theorem c5_counterexample :
    env_c5.pollNet 0 = .urlError "neterr" ∧
    Event.statusUpdate "错误: neterr" ∈ (loginThread env_c5).trace ∧
    Event.callPoll 0 ∈ (loginThread env_c5).trace ∧
    Event.callPoll 1 ∈ (loginThread env_c5).trace ∧
    (loginThread env_c5).trace.countP Event.isSleep = 2 ∧
    Event.sleepSec 3 ∉ (loginThread env_c5).trace ∧
    Event.sleepSec 5 ∉ (loginThread env_c5).trace := by
  refine ⟨by decide, by decide, by decide, by decide, by decide, by decide, by decide⟩

/-- Claim C5 amended: every delay the state machine ever performs is the
fixed 2-second inter-poll sleep; no tick — in particular no
TransientError tick — adds an extra 3-second backoff.  (The `except`
handler holding `time.sleep(3)` is dead code: `get_qrcode_status` never
raises, and a TransientError response is intercepted by the
`state`-false advisory branch.) -/
theorem c5_amended_fixed_delay_only (env : Env) (n : Nat)
    (h : Event.sleepSec n ∈ (loginThread env).trace) : n = 2 := by
  rcases loginThread_decomp env with hd | ⟨payload, uid, post, h1, h2, h3⟩
  · exact absurd h (not_mem_of_countP_loopish hd _ (by simp [Event.isLoopish]))
  · rw [h1, List.mem_append, List.mem_append] at h
    rcases h with (h | h) | h
    · exact absurd h
        (not_mem_of_countP_loopish (preTrace_loopish env.displayFails) _
          (by simp [Event.isLoopish]))
    · exact pollLoop_sleep env payload uid 92 0 0 n h
    · exact absurd h (not_mem_of_countP_loopish h2 _ (by simp [Event.isLoopish]))

theorem c5_witness : 2 = 2 :=
  c5_amended_fixed_delay_only env_c5 2 (by decide)

/-- Claim C7 counterexample: the claim as stated is false.  A login
attempt started with the unrecognized identity "foo" is not rejected
before any remote call: the token request, the image request and a
status poll are all issued, and the attempt only fails (with the
`ValueError`) when the result exchange is attempted. -/
theorem c7_counterexample :
    (∃ m, get_enum_name (.str env_c7.app) = .error m) ∧
    Event.callToken ∈ (loginThread env_c7).trace ∧
    Event.callImage ∈ (loginThread env_c7).trace ∧
    Event.callPoll 0 ∈ (loginThread env_c7).trace ∧
    (loginThread env_c7).terminal = .failed (.valueError "Invalid app type provided: foo") ∧
    (loginThread env_c7).trace.countP Event.isExchange = 0 := by
  refine ⟨⟨"foo is not a valid member or name in AppEnum", rfl⟩,
    by decide, by decide, by decide, by decide, by decide⟩

/-- Claim C7 amended: an unrecognized target identity is rejected only
when the result exchange is attempted, not before: `get_enum_name`
inside `post_qrcode_result` raises `ValueError` before the exchange
request is built, so the exchange request is never issued — but the
token, image and poll requests may already have been issued by then
(`c7_counterexample`).  Only the empty identity is rejected locally by
`start_login_process` before any remote call. -/
theorem c7_amended_rejected_at_exchange (env : Env) (m : String)
    (hbad : get_enum_name (.str env.app) = .error m) :
    (∀ api, Event.callExchange api ∉ (loginThread env).trace) ∧
      (∀ uid net, (post_qrcode_result uid (.str env.app) net).1 = [] ∧
        (post_qrcode_result uid (.str env.app) net).2
          = .error (.valueError ("Invalid app type provided: " ++ env.app))) := by
  constructor
  · intro api hmem
    rcases loginThread_decomp env with hd | ⟨payload, uid, post, h1, h2, h3⟩
    · exact absurd hmem (not_mem_of_countP_loopish hd _ (by simp [Event.isLoopish]))
    · rw [h1, List.mem_append, List.mem_append] at hmem
      rcases hmem with (hmem | hmem) | hmem
      · exact absurd hmem
          (not_mem_of_countP_loopish (preTrace_loopish env.displayFails) _
            (by simp [Event.isLoopish]))
      · have hok := (pollLoop_exch env payload uid 92 0 0 api hmem).2.2.2.1
        rw [hbad] at hok
        simp [Except.isOk, Except.toBool] at hok
      · exact absurd hmem (not_mem_of_countP_loopish h2 _ (by simp [Event.isLoopish]))
  · intro uid net
    have h := post_qrcode_result_events_of_error uid (.str env.app) net m hbad
    exact ⟨h.1, h.2⟩

theorem c7_witness :
    Event.callExchange (exchangeApi "windows") ∉ (loginThread env_c7).trace :=
  (c7_amended_rejected_at_exchange env_c7
    "foo is not a valid member or name in AppEnum" rfl).1 (exchangeApi "windows")

/-- Claim C8 counterexample: the claim as stated is false in one corner.
With cancellation requested right after a successful token issuance and
before any poll, but the image fetch failing, the session terminates
`Failed(Connectivity)` — not `Cancelled` — though indeed with zero
status-poll calls. -/
theorem c8_counterexample :
    (get_qrcode_token env_c8c.tokenNet).isOk = true ∧
    stopSeen env_c8c 0 = true ∧
    (loginThread env_c8c).terminal
      = .failed (.connectionError "Failed to download QR code image: down") ∧
    (loginThread env_c8c).terminal ≠ .stopped ∧
    (loginThread env_c8c).trace.countP Event.isPoll = 0 := by
  refine ⟨by decide, by decide, by decide, by decide, by decide⟩

/-- Claim C8 amended: on the happy path (token acquired and well-formed,
image fetched), cancellation observed at or before the first two stop
checks makes the session terminate `Cancelled` (stopped) with zero
status-poll and zero exchange calls; and in every run, a poll or
exchange request is issued only at a point where the immediately
preceding stop check read false — once the cancellation signal is
observed (the checks being monotone), no further remote calls are
issued. -/
theorem c8_amended_cancellation (env : Env) :
    (∀ tr tok q uid img s,
      env.tokenNet = .ok tr → tr.state = true → tr.data = some tok →
      tok.qrcode = some q → tok.uid = some uid → env.imageNet = .ok img →
      env.stopFrom = some s → s ≤ 1 →
      (loginThread env).terminal = .stopped ∧
        (loginThread env).trace.countP Event.isPoll = 0 ∧
        (loginThread env).trace.countP Event.isExchange = 0) ∧
    (∀ j, Event.callPoll j ∈ (loginThread env).trace → stopSeen env (3*j+1) = false) ∧
    (∀ api, Event.callExchange api ∈ (loginThread env).trace →
      ∃ k, Event.callPoll k ∈ (loginThread env).trace ∧ stopSeen env (3*k+2) = false) := by
  have hpoll_loopish : ∀ e : Event, Event.isPoll e = true → Event.isLoopish e = true := by
    intro e he; cases e <;> simp_all [Event.isPoll, Event.isLoopish]
  have hexch_loopish : ∀ e : Event, Event.isExchange e = true → Event.isLoopish e = true := by
    intro e he; cases e <;> simp_all [Event.isExchange, Event.isLoopish]
  refine ⟨?_, ?_, ?_⟩
  · intro tr tok q uid img s htok hstate hdata hq hu him hstop hs
    have hb := loginThreadBody_loop env tr tok q uid img htok hstate hdata hq hu him
    have hpl : ∃ evs0, (evs0 = ([] : List Event) ∨ evs0 = [Event.sleepSec 2]) ∧
        pollLoop env ⟨some uid, tok.time, tok.sign, none⟩ uid 92 0 0
          = ⟨evs0, 0, .stopExit⟩ := by
      interval_cases s
      · refine ⟨[], Or.inl rfl, ?_⟩
        exact pollLoop_succ_exit env _ uid (by simp [loopIter, stopSeen, hstop])
      · refine ⟨[Event.sleepSec 2], Or.inr rfl, ?_⟩
        exact pollLoop_succ_exit env _ uid (by simp [loopIter, stopSeen, hstop])
    rcases hpl with ⟨evs0, hevs0, hpo⟩
    rw [hpo] at hb
    have hb2 : loginThreadBody env
        = (preTrace env.displayFails ++ evs0 ++ [Event.statusUpdate "操作已停止。"],
            .stopped) := by
      rw [hb]
    have htrace : (loginThread env).trace
        = preTrace env.displayFails ++ evs0 ++ [Event.statusUpdate "操作已停止。"] := by
      rw [(loginThread_trace env).2, hb2]
      simp
    have hterm : (loginThread env).terminal = .stopped := by
      rw [(loginThread_trace env).1, hb2]
    have z0 : evs0.countP Event.isPoll = 0 ∧ evs0.countP Event.isExchange = 0 := by
      rcases hevs0 with rfl | rfl <;>
        simp [List.countP_cons, Event.isPoll, Event.isExchange]
    refine ⟨hterm, ?_, ?_⟩
    · rw [htrace, List.countP_append, List.countP_append]
      have := countP_sub_loopish _ Event.isPoll hpoll_loopish
        (preTrace_loopish env.displayFails)
      simp [this, z0.1, List.countP_cons, Event.isPoll]
    · rw [htrace, List.countP_append, List.countP_append]
      have := countP_sub_loopish _ Event.isExchange hexch_loopish
        (preTrace_loopish env.displayFails)
      simp [this, z0.2, List.countP_cons, Event.isExchange]
  · intro j hj
    rcases loginThread_decomp env with hd | ⟨payload, uid, post, h1, h2, h3⟩
    · exact absurd hj (not_mem_of_countP_loopish hd _ (by simp [Event.isLoopish]))
    · rw [h1, List.mem_append, List.mem_append] at hj
      rcases hj with (hj | hj) | hj
      · exact absurd hj
          (not_mem_of_countP_loopish (preTrace_loopish env.displayFails) _
            (by simp [Event.isLoopish]))
      · exact (pollLoop_poll env payload uid 92 0 0 j hj).2.2
      · exact absurd hj (not_mem_of_countP_loopish h2 _ (by simp [Event.isLoopish]))
  · intro api hapi
    rcases loginThread_decomp env with hd | ⟨payload, uid, post, h1, h2, h3⟩
    · exact absurd hapi (not_mem_of_countP_loopish hd _ (by simp [Event.isLoopish]))
    · rw [h1, List.mem_append, List.mem_append] at hapi
      rcases hapi with (hapi | hapi) | hapi
      · exact absurd hapi
          (not_mem_of_countP_loopish (preTrace_loopish env.displayFails) _
            (by simp [Event.isLoopish]))
      · have hx := pollLoop_exch env payload uid 92 0 0 api hapi
        refine ⟨(pollLoop env payload uid 92 0 0).kEnd, ?_, hx.2.2.1⟩
        rw [h1, List.mem_append, List.mem_append]
        exact Or.inl (Or.inr hx.2.1)
      · exact absurd hapi (not_mem_of_countP_loopish h2 _ (by simp [Event.isLoopish]))

theorem c8_witness :
    (loginThread env_c8).terminal = .stopped ∧
      (loginThread env_c8).trace.countP Event.isPoll = 0 ∧
      (loginThread env_c8).trace.countP Event.isExchange = 0 :=
  (c8_amended_cancellation env_c8).1 goodToken goodTokenData "QR" "U1" [1] 0
    rfl rfl rfl rfl rfl rfl rfl (by omega)

end Scan115
